import Mathlib

/-!
Verification of the haystack preview generator/batch components.

Shallow embedding of:
- `haystack/preview/components/batch/batch_creator.py` (`BatchCreator.run`)
- `haystack/preview/components/generators/_helpers.py` (`enforce_token_limit`)
- `haystack/preview/components/generators/openai/_helpers.py`
  (`openai_retry`, `query_chat_model`, `query_chat_model_stream`,
   `raise_for_status`, `check_truncated_answers`, `check_filtered_answers`)

Python `None`-able integers are `Option Nat`; Python exceptions are values of
an explicit error type threaded through `Except`; `logger.warning` calls are
made observable as explicit boolean/optional outputs.
-/

namespace Haystack

/-! ## BatchCreator (batch_creator.py) -/

/-- State of a `BatchCreator` component: `max_batch_size` is `Optional[int]`
(default `0` in the source), `batch` is the accumulating buffer. -/
structure BatchCreator (α : Type) where
  max_batch_size : Option Nat
  batch : List α

/-- Embedding of `BatchCreator.run`.  The source appends `item` to
`self.batch`, then returns `{}` (here `none`) when
`not release_batch and (self.max_batch_size is not None and len(self.batch) < self.max_batch_size)`,
and otherwise outputs the whole buffer and resets it to `[]`. -/
def BatchCreator.run (self : BatchCreator α) (item : α) (release_batch : Bool) :
    BatchCreator α × Option (List α) :=
  let batch := self.batch ++ [item]
  if !release_batch &&
      (match self.max_batch_size with
       | none => false
       | some k => decide (batch.length < k)) then
    ({ self with batch := batch }, none)
  else
    ({ self with batch := [] }, some batch)

/-- Run a sequence of `(item, release_batch)` calls, threading the component
state and collecting each call's output. -/
def BatchCreator.runSeq (self : BatchCreator α) :
    List (α × Bool) → BatchCreator α × List (Option (List α))
  | [] => (self, [])
  | (i, rb) :: rest =>
    let step := self.run i rb
    let next := step.1.runSeq rest
    (next.1, step.2 :: next.2)

/-! ## OpenAI error classes and `raise_for_status` (openai/_helpers.py) -/

/-- The exceptions in play.  Modelled from the spec: the error classes of
`haystack/preview/components/generators/openai/errors.py` are not among the
sources at hand; per the spec the classification is
`{RateLimited, Unauthorized, GenericProviderError}`, "each carrying status
code and raw body text".  `other` stands for any non-OpenAI exception
(JSON decode errors, callback exceptions, connection errors, ...). -/
inductive Exc where
  | rateLimited (message : String)
  | unauthorized (message : String)
  | generic (status_code : Nat) (message : String)
  | other (message : String)
deriving DecidableEq

/-- Modelled from the spec: each classified error carries its HTTP status
code (`OpenAIRateLimitError` is the 429 class, `OpenAIUnauthorizedError` the
401 class, `OpenAIError` takes the code as a constructor argument). -/
def Exc.status_code : Exc → Option Nat
  | .rateLimited _ => some 429
  | .unauthorized _ => some 401
  | .generic s _ => some s
  | .other _ => none

/-- The message string attached to the exception. -/
def Exc.message : Exc → String
  | .rateLimited m => m
  | .unauthorized m => m
  | .generic _ m => m
  | .other m => m

/-- Whether the exception is an instance of the `OpenAIError` class
hierarchy. -/
def Exc.isOpenAIError : Exc → Bool
  | .other _ => false
  | _ => true

/-- An HTTP response as the helpers see it: `status_code` and body `text`. -/
structure Response where
  status_code : Nat
  text : String

/-- Embedding of `raise_for_status`: `some e` means the call raises `e`, `none` means it
returns normally. -/
def raise_for_status (response : Response) : Option Exc :=
  if response.status_code ≥ 400 then
    some (if response.status_code = 429 then
            .rateLimited ("API rate limit exceeded: " ++ response.text)
          else if response.status_code = 401 then
            .unauthorized ("API key is invalid: " ++ response.text)
          else
            .generic response.status_code
              ("OpenAI returned an error.\nStatus code: "
                ++ toString response.status_code
                ++ "\nResponse body: " ++ response.text))
  else none

/-! ## The `openai_retry` decorator -/

/-- Default value of `HAYSTACK_REMOTE_API_MAX_RETRIES`. -/
def OPENAI_MAX_RETRIES : Nat := 5

/-- Predicate `tenacity.retry_if_exception_type(OpenAIError)`, as a predicate on the
raised exception. -/
def retry_if_OpenAIError (e : Exc) : Bool := e.isOpenAIError

/-- Predicate `tenacity.retry_if_not_exception_type(OpenAIUnauthorizedError)`,
as a predicate on the raised exception. -/
def retry_if_not_Unauthorized : Exc → Bool
  | .unauthorized _ => false
  | _ => true

/-- The retry predicate the source actually installs.  The source writes
`retry_if_exception_type(OpenAIError) and retry_if_not_exception_type(OpenAIUnauthorizedError)`
with Python's boolean `and`; both operands are ordinary (truthy) predicate
objects, so the expression evaluates to its right operand alone, not to the
conjunction (`tenacity` composes predicates with `&`, not `and`). -/
def openai_retry_predicate : Exc → Bool := retry_if_not_Unauthorized

/-- A `tenacity.retry` loop with `reraise=True` and
`stop=stop_after_attempt(maxAttempts)`.  `f` is the wrapped call, indexed by
the attempt number (starting at 1); the result is the final outcome paired
with the number of attempts performed.  `fuel` bounds the recursion and is
instantiated with `maxAttempts`, which the stop condition never lets the
loop exceed. -/
def retryFrom (pred : Exc → Bool) (maxAttempts : Nat) (f : Nat → Except Exc α) :
    Nat → Nat → Except Exc α × Nat
  | attempt, fuel =>
    match f attempt with
    | .ok a => (.ok a, attempt)
    | .error e =>
      match fuel with
      | 0 => (.error e, attempt)
      | fuel' + 1 =>
        if pred e && decide (attempt < maxAttempts) then
          retryFrom pred maxAttempts f (attempt + 1) fuel'
        else (.error e, attempt)

/-- Result of the `@openai_retry` decorator applied to a call `f`. -/
def openai_retry (f : Nat → Except Exc α) : Except Exc α × Nat :=
  retryFrom openai_retry_predicate OPENAI_MAX_RETRIES f 1 OPENAI_MAX_RETRIES

/-! ## Non-streaming query and the answer checks -/

/-- Embedding of the `"message"` object of a chat completion choice. -/
structure Message where
  content : String

/-- One element of the response's `"choices"` array. -/
structure Choice where
  message : Message
  finish_reason : String

/-- The parsed JSON body of a chat completions response. -/
structure ChatResponse where
  choices : List Choice

/-- Python's `str.strip()`: drops leading and trailing whitespace
characters.  (Python's exact whitespace set is abstracted to
`Char.isWhitespace`.) -/
def pyStrip (s : String) : String :=
  ⟨((s.data.dropWhile Char.isWhitespace).reverse.dropWhile Char.isWhitespace).reverse⟩

/-- Embedding of `check_truncated_answers`: counts the choices whose `finish_reason` is
`"length"` and, when positive, logs a warning reporting that count out of
`payload["n"]`.  The emitted warning is returned as data:
`some (count, denominator)`. -/
def check_truncated_answers (result : ChatResponse) (payload_n : Nat) :
    Option (Nat × Nat) :=
  let truncated_completions :=
    result.choices.countP (fun ans => ans.finish_reason == "length")
  if truncated_completions > 0 then some (truncated_completions, payload_n)
  else none

/-- Embedding of `check_filtered_answers`: same shape for `finish_reason`
`"content_filter"`. -/
def check_filtered_answers (result : ChatResponse) (payload_n : Nat) :
    Option (Nat × Nat) :=
  let filtered_completions :=
    result.choices.countP (fun ans => ans.finish_reason == "content_filter")
  if filtered_completions > 0 then some (filtered_completions, payload_n)
  else none

/-- Embedding of `query_chat_model`: the HTTP POST is modelled by the `Response` it
produces and `json.loads` by the `parse` argument (raising on malformed
bodies).  Returns the reply list (or the raised exception) together with the
two warnings, made observable as data. -/
def query_chat_model (parse : String → Except Exc ChatResponse) (payload_n : Nat)
    (response : Response) :
    Except Exc (List String) × Option (Nat × Nat) × Option (Nat × Nat) :=
  match raise_for_status response with
  | some e => (.error e, none, none)
  | none =>
    match parse response.text with
    | .error e => (.error e, none, none)
    | .ok json_response =>
      (.ok (json_response.choices.map fun choice => pyStrip choice.message.content),
       check_truncated_answers json_response payload_n,
       check_filtered_answers json_response payload_n)

/-! ## Streaming query -/

/-- Embedding of the `"delta"` object of a streamed choice; `content` is absent in some
events. -/
structure Delta where
  content : Option String

/-- One element of a streamed event's `"choices"` array. -/
structure StreamChoice where
  delta : Delta

/-- The parsed JSON of one streamed event's data. -/
structure EventData where
  choices : List StreamChoice

/-- One server-sent event as the loop sees it: `marker` is an event whose
raw `data` equals the termination marker (compared before any parsing);
`payload d` is an event whose data parses to `d`; `malformed e` is an event
whose data fails `json.loads`, raising `e`. -/
inductive SSEEvent where
  | marker
  | payload (d : EventData)
  | malformed (e : Exc)

/-- Embedding of the `for event in client.events()` loop of `query_chat_model_stream`.
Returns the accumulated (possibly callback-transformed) tokens — or the
exception that unwinds the loop (JSON decode error, the `choices[0]`
IndexError, or an exception raised by the callback) — paired with the trace
of tokens passed to the callback, in call order.  The callback also receives
`event_data["choices"]`, as in the source. -/
def stream_loop (callback : String → List StreamChoice → Except Exc String) :
    List SSEEvent → Except Exc (List String) × List String
  | [] => (.ok [], [])
  | .marker :: _ => (.ok [], [])
  | .malformed e :: _ => (.error e, [])
  | .payload d :: rest =>
    match d.choices with
    | [] => (.error (.other "IndexError: list index out of range"), [])
    | choice :: _ =>
      match choice.delta.content with
      | some token =>
        if token = "" then stream_loop callback rest
        else
          match callback token d.choices with
          | .ok r =>
            let next := stream_loop callback rest
            (next.1.map (fun tokens => r :: tokens), token :: next.2)
          | .error e => (.error e, [token])
      | none => stream_loop callback rest

/-- Outcome of `query_chat_model_stream`, with the resource accounting made
explicit: `closes` counts the executions of `client.close()`. -/
structure StreamOutcome where
  result : Except Exc (List String)
  callback_calls : List String
  closes : Nat

/-- Embedding of `query_chat_model_stream` after the SSE client is created, on the parsed
event sequence.  The `try ... finally: client.close()` of the source runs
the close exactly once on every exit path — loop `break` at the marker,
stream exhaustion, or an unwinding exception — and the success value is
`["".join(tokens)]`. -/
def query_chat_model_stream
    (callback : String → List StreamChoice → Except Exc String)
    (events : List SSEEvent) : StreamOutcome :=
  let body := stream_loop callback events
  { result := body.1.map (fun tokens => [String.join tokens]),
    callback_calls := body.2,
    closes := 1 }

/-! ## enforce_token_limit (generators/_helpers.py) -/

/-- A tokenizer object as `enforce_token_limit` uses it. -/
structure Tokenizer where
  encode : String → List Nat
  decode : List Nat → String

/-- Embedding of `enforce_token_limit`; the boolean records whether the truncation
warning was logged. -/
def enforce_token_limit (prompt : String) (tokenizer : Tokenizer)
    (max_tokens_limit : Nat) : String × Bool :=
  let tokens := tokenizer.encode prompt
  let tokens_count := tokens.length
  if tokens_count > max_tokens_limit then
    let tokenized_payload := tokenizer.encode prompt
    (tokenizer.decode (tokenized_payload.take max_tokens_limit), true)
  else (prompt, false)

/-- A concrete character-level tokenizer: one token per character, decoding
by code point.  Round-trips exactly on well-formed code points. -/
def charTok : Tokenizer :=
  ⟨fun s => s.data.map Char.toNat, fun l => String.mk (l.map Char.ofNat)⟩

/-- A degenerate tokenizer whose decoder discards everything: a legal value
for the untyped `tokenizer` parameter of `enforce_token_limit`. -/
def lossyTok : Tokenizer :=
  ⟨fun s => s.data.map (fun _ => 0), fun _ => ""⟩

/-- An SSE event whose parsed data has a single first choice whose delta
carries `content = t`. -/
def mkTokenEvent (t : String) : SSEEvent :=
  .payload ⟨[⟨⟨some t⟩⟩]⟩

/-- A well-formed token stream: content events for `ts`, in order, followed
by the termination marker. -/
def tokenStream (ts : List String) : List SSEEvent :=
  ts.map mkTokenEvent ++ [.marker]

end Haystack

namespace Haystack

/-- Canonical form of one `run` step: the guard of the source's early return,
expressed as a proposition. -/
theorem BatchCreator.run_eq (s : BatchCreator α) (item : α) (rb : Bool) :
    s.run item rb =
      if rb = false ∧ ∃ k, s.max_batch_size = some k ∧ s.batch.length + 1 < k then
        ({ s with batch := s.batch ++ [item] }, none)
      else ({ s with batch := [] }, some (s.batch ++ [item])) := by
  unfold BatchCreator.run
  cases rb <;> cases h : s.max_batch_size <;>
    simp [h, List.length_append]

/-- The method `run` releases a batch exactly when `release_batch` is true, or
`max_batch_size` is `None`, or the post-append buffer length has reached
`max_batch_size`. -/
theorem BatchCreator.run_releases_iff (s : BatchCreator α) (item : α) (rb : Bool) :
    ((s.run item rb).2.isSome ↔
      rb = true ∨ s.max_batch_size = none ∨
        ∃ k, s.max_batch_size = some k ∧ k ≤ s.batch.length + 1) := by
  rw [BatchCreator.run_eq]
  by_cases hc : rb = false ∧ ∃ k, s.max_batch_size = some k ∧ s.batch.length + 1 < k
  · obtain ⟨hrb, k, hk, hlt⟩ := hc
    subst hrb
    rw [if_pos ⟨rfl, k, hk, hlt⟩]
    simp [hk]
    omega
  · rw [if_neg hc]
    push_neg at hc
    simp only [Option.isSome_some, true_iff]
    by_cases hrb : rb = true
    · exact Or.inl hrb
    · have hrb' : rb = false := by simpa using hrb
      cases hmax : s.max_batch_size with
      | none => exact Or.inr (Or.inl rfl)
      | some k => exact Or.inr (Or.inr ⟨k, rfl, hc hrb' k hmax⟩)

/-- When a batch is released, the buffer is reset to empty. -/
theorem BatchCreator.run_resets (s : BatchCreator α) (item : α) (rb : Bool)
    (h : (s.run item rb).2.isSome) : (s.run item rb).1.batch = [] := by
  by_cases hc : rb = false ∧ ∃ k, s.max_batch_size = some k ∧ s.batch.length + 1 < k
  · rw [BatchCreator.run_eq] at h
    simp [hc] at h
  · simp [BatchCreator.run_eq, hc]

/-- When no batch is released, the buffer is the old buffer with the item
appended. -/
theorem BatchCreator.run_keeps (s : BatchCreator α) (item : α) (rb : Bool)
    (h : (s.run item rb).2 = none) : (s.run item rb).1.batch = s.batch ++ [item] := by
  by_cases hc : rb = false ∧ ∃ k, s.max_batch_size = some k ∧ s.batch.length + 1 < k
  · simp [BatchCreator.run_eq, hc]
  · rw [BatchCreator.run_eq] at h
    simp [hc] at h

/-- C1 counterexample: with `max_batch_size = 0` and `release_batch = false`,
`run` DOES return a batch (the claim says it never does): the post-append
buffer length `1` is not `< 0`, so the source's early-return guard fails and
the batch is released on every call. -/
theorem C1_counterexample :
    ((BatchCreator.mk (some 0) ([] : List String)).run "a" false).2 = some ["a"] ∧
      ¬ ((BatchCreator.mk (some 0) ([] : List String)).run "a" false).2 = none := by
  constructor
  · rfl
  · intro h
    simp [BatchCreator.run] at h

/-- C1 (amended): after the item is appended, `run` returns a batch if and
only if `release_batch` is true OR `max_batch_size` is `None` OR the buffer
length has reached `max_batch_size`; in particular `max_batch_size = 0` (or
`None`) releases the singleton buffer on every call, it never merely
accumulates.  When nothing is released, the buffer keeps accumulating. -/
theorem C1_run_release_condition (s : BatchCreator α) (item : α) (rb : Bool) :
    ((s.run item rb).2.isSome ↔
      rb = true ∨ s.max_batch_size = none ∨
        ∃ k, s.max_batch_size = some k ∧ k ≤ s.batch.length + 1) ∧
    ((s.run item rb).2 = none → (s.run item rb).1.batch = s.batch ++ [item]) :=
  ⟨BatchCreator.run_releases_iff s item rb, BatchCreator.run_keeps s item rb⟩

/-- Witness for C1: concrete instance of the amended release condition. -/
theorem C1_run_release_condition_witness :
    ((BatchCreator.mk (some 3) ["x"]).run "y" false).1.batch = ["x", "y"] :=
  (C1_run_release_condition (BatchCreator.mk (some 3) ["x"]) "y" false).2 rfl

/-- Running a sequence of items through a `BatchCreator` with
`max_batch_size = some k` (`0 < k`), all with `release_batch = false`, from a
buffer shorter than `k`: the number of released batches is
`(|buffer| + N) / k`, every released batch has exactly `k` items, and the
final buffer holds `(|buffer| + N) % k` items. -/
theorem BatchCreator.runSeq_false_spec (k : Nat) (hk : 0 < k) :
    ∀ (items : List α) (b : List α), b.length < k →
      (((BatchCreator.runSeq ⟨some k, b⟩ (items.map fun i => (i, false))).2.filterMap id).length
          = (b.length + items.length) / k)
      ∧ (∀ out ∈ (BatchCreator.runSeq ⟨some k, b⟩ (items.map fun i => (i, false))).2.filterMap id,
          out.length = k)
      ∧ (BatchCreator.runSeq ⟨some k, b⟩ (items.map fun i => (i, false))).1.batch.length
          = (b.length + items.length) % k
  | [], b, hb => by
    simp [BatchCreator.runSeq, Nat.div_eq_of_lt hb, Nat.mod_eq_of_lt hb]
  | i :: rest, b, hb => by
    have hrun := BatchCreator.run_eq (BatchCreator.mk (some k) b) i false
    by_cases hlt : b.length + 1 < k
    · rw [if_pos ⟨rfl, k, rfl, hlt⟩] at hrun
      have ih := BatchCreator.runSeq_false_spec k hk rest (b ++ [i])
        (by simpa using hlt)
      have harith : (b ++ [i]).length + rest.length = b.length + (i :: rest).length := by
        simp; omega
      rw [harith] at ih
      simp only [List.map_cons, BatchCreator.runSeq, hrun]
      simpa using ih
    · rw [if_neg (by
        rintro ⟨-, k', hk', hlt'⟩
        simp at hk' hlt'
        omega)] at hrun
      have hkb : k = b.length + 1 := by omega
      have ih := BatchCreator.runSeq_false_spec k hk rest [] hk
      obtain ⟨ih1, ih2, ih3⟩ := ih
      have hnum : b.length + (i :: rest).length = rest.length + k := by
        simp
        omega
      simp only [List.map_cons, BatchCreator.runSeq, hrun]
      refine ⟨?_, ?_, ?_⟩
      · rw [hnum, Nat.add_div_right _ hk]
        simp [ih1]
      · intro out hout
        simp at hout
        rcases hout with hout | hout
        · simp [hout]
          omega
        · exact ih2 out (by simpa using hout)
      · rw [hnum, Nat.add_mod_right]
        simpa using ih3

/-- C7: with `max_batch_size = some k > 0` and `release_batch` always false,
`N` calls release exactly `N / k` batches, each of exactly `k` items; `run`
returns nothing while the post-append buffer is shorter than `k`; the buffer
is empty immediately after any release; and the `k = 2` example behaves as
`"a" ↦ none`, `"b" ↦ ["a","b"]`, forced `"c" ↦ ["c"]`. -/
theorem C7_batching_floor (k : Nat) (hk : 0 < k) (items : List α) :
    (((BatchCreator.runSeq ⟨some k, []⟩ (items.map fun i => (i, false))).2.filterMap id).length
        = items.length / k)
    ∧ (∀ out ∈ (BatchCreator.runSeq ⟨some k, []⟩ (items.map fun i => (i, false))).2.filterMap id,
        out.length = k)
    ∧ (∀ (s : BatchCreator α) (i : α), s.max_batch_size = some k →
        s.batch.length + 1 < k → (s.run i false).2 = none)
    ∧ (∀ (s : BatchCreator α) (i : α) (rb : Bool),
        (s.run i rb).2.isSome → (s.run i rb).1.batch = [])
    ∧ ((BatchCreator.runSeq (BatchCreator.mk (some 2) ([] : List String))
          [("a", false), ("b", false), ("c", true)]).2
        = [none, some ["a", "b"], some ["c"]]) := by
  obtain ⟨h1, h2, -⟩ := BatchCreator.runSeq_false_spec (α := α) k hk items [] hk
  refine ⟨by simpa using h1, h2, ?_, BatchCreator.run_resets, by rfl⟩
  intro s i hmax hlen
  rw [BatchCreator.run_eq, if_pos ⟨rfl, k, hmax, hlen⟩]

/-- Witness for C7: five items through a size-2 batcher yield two full
batches of two. -/
theorem C7_batching_floor_witness :
    (((BatchCreator.runSeq (BatchCreator.mk (some 2) ([] : List String))
        ((["a", "b", "c", "d", "e"]).map fun i => (i, false))).2.filterMap id).length = 2) := by
  have h := (C7_batching_floor 2 (by norm_num) ["a", "b", "c", "d", "e"]).1
  simpa using h


/-- C3: `raise_for_status` raises if and only if the status code is ≥ 400,
classified RateLimited for 429, Unauthorized for 401, generic otherwise, and
every raised error carries the response's status code and ends with the raw
body text. -/
theorem C3_raise_for_status_classification (r : Response) :
    ((raise_for_status r).isSome ↔ 400 ≤ r.status_code)
    ∧ (r.status_code = 429 →
        raise_for_status r
          = some (.rateLimited ("API rate limit exceeded: " ++ r.text)))
    ∧ (r.status_code = 401 →
        raise_for_status r
          = some (.unauthorized ("API key is invalid: " ++ r.text)))
    ∧ (400 ≤ r.status_code → r.status_code ≠ 429 → r.status_code ≠ 401 →
        ∃ m, raise_for_status r = some (.generic r.status_code m))
    ∧ (∀ e, raise_for_status r = some e →
        e.status_code = some r.status_code ∧ ∃ p, e.message = p ++ r.text) := by
  refine ⟨?_, ?_, ?_, ?_, ?_⟩
  · unfold raise_for_status
    split_ifs with h <;> simp [h]
  · intro h
    simp [raise_for_status, h]
  · intro h
    simp [raise_for_status, h]
  · intro h4 h429 h401
    refine ⟨"OpenAI returned an error.\nStatus code: " ++ toString r.status_code
      ++ "\nResponse body: " ++ r.text, ?_⟩
    simp [raise_for_status, h4, h429, h401]
  · intro e he
    unfold raise_for_status at he
    by_cases h4 : 400 ≤ r.status_code
    · rw [if_pos h4] at he
      by_cases h429 : r.status_code = 429
      · rw [if_pos h429] at he
        injection he with he
        subst he
        exact ⟨by simp [Exc.status_code, h429], _, rfl⟩
      · rw [if_neg h429] at he
        by_cases h401 : r.status_code = 401
        · rw [if_pos h401] at he
          injection he with he
          subst he
          exact ⟨by simp [Exc.status_code, h401], _, rfl⟩
        · rw [if_neg h401] at he
          injection he with he
          subst he
          exact ⟨rfl, _, rfl⟩
    · rw [if_neg h4] at he
      exact absurd he (by simp)

/-- Witness for C3: a concrete 429 response is classified RateLimited. -/
theorem C3_raise_for_status_classification_witness :
    raise_for_status ⟨429, "slow down"⟩
      = some (.rateLimited ("API rate limit exceeded: " ++ "slow down")) :=
  (C3_raise_for_status_classification ⟨429, "slow down"⟩).2.1 rfl

/-- C9: on a successful, parsed response, `query_chat_model` returns exactly
one reply per choice, in order, each being that choice's message content
with leading and trailing whitespace removed. -/
theorem C9_query_chat_model_strips (parse : String → Except Exc ChatResponse)
    (payload_n : Nat) (r : Response) (j : ChatResponse)
    (hok : raise_for_status r = none) (hparse : parse r.text = .ok j) :
    (query_chat_model parse payload_n r).1
        = .ok (j.choices.map fun choice => pyStrip choice.message.content)
    ∧ ∀ replies, (query_chat_model parse payload_n r).1 = .ok replies →
        replies.length = j.choices.length := by
  unfold query_chat_model
  rw [hok, hparse]
  constructor
  · rfl
  · intro replies h
    injection h with h
    subst h
    simp

/-- Witness for C9: whitespace-padded content is stripped, not returned
verbatim. -/
theorem C9_query_chat_model_strips_witness :
    (query_chat_model
        (fun _ => .ok (ChatResponse.mk [⟨⟨" hi "⟩, "stop"⟩])) 1 ⟨200, "x"⟩).1
      = .ok ["hi"] := by
  have h := (C9_query_chat_model_strips
    (fun _ => .ok (ChatResponse.mk [⟨⟨" hi "⟩, "stop"⟩])) 1 ⟨200, "x"⟩
    (ChatResponse.mk [⟨⟨" hi "⟩, "stop"⟩]) rfl rfl).1
  rw [h]
  simp only [Except.ok.injEq]
  decide

/-- C8: `"length"` / `"content_filter"` finish reasons only ever produce
warnings — the functions are total and the full reply list is still
returned — and a warning's denominator is `payload["n"]`, independent of the
actual number of returned choices. -/
theorem C8_warnings_not_errors (parse : String → Except Exc ChatResponse)
    (payload_n : Nat) (r : Response) (j : ChatResponse)
    (hok : raise_for_status r = none) (hparse : parse r.text = .ok j) :
    ((∃ w, check_truncated_answers j payload_n = some w) ↔
        0 < j.choices.countP (fun ans => ans.finish_reason == "length"))
    ∧ (∀ c d, check_truncated_answers j payload_n = some (c, d) →
        c = j.choices.countP (fun ans => ans.finish_reason == "length")
          ∧ d = payload_n)
    ∧ ((∃ w, check_filtered_answers j payload_n = some w) ↔
        0 < j.choices.countP (fun ans => ans.finish_reason == "content_filter"))
    ∧ (∀ c d, check_filtered_answers j payload_n = some (c, d) →
        c = j.choices.countP (fun ans => ans.finish_reason == "content_filter")
          ∧ d = payload_n)
    ∧ (query_chat_model parse payload_n r).1
        = .ok (j.choices.map fun choice => pyStrip choice.message.content) := by
  refine ⟨?_, ?_, ?_, ?_, ?_⟩
  · by_cases h : 0 < j.choices.countP (fun ans => ans.finish_reason == "length") <;>
      simp [check_truncated_answers, h]
  · intro c d h
    by_cases hp : 0 < j.choices.countP (fun ans => ans.finish_reason == "length")
    · simp [check_truncated_answers, hp] at h
      exact ⟨by omega, by omega⟩
    · simp [check_truncated_answers, hp] at h
  · by_cases h : 0 < j.choices.countP (fun ans => ans.finish_reason == "content_filter") <;>
      simp [check_filtered_answers, h]
  · intro c d h
    by_cases hp : 0 < j.choices.countP (fun ans => ans.finish_reason == "content_filter")
    · simp [check_filtered_answers, hp] at h
      exact ⟨by omega, by omega⟩
    · simp [check_filtered_answers, hp] at h
  · unfold query_chat_model
    rw [hok, hparse]

/-- Witness for C8: a response with one truncated and one filtered choice
still yields all three replies, while the warnings report against
`payload["n"] = 7`, not the choice count `3`. -/
theorem C8_warnings_not_errors_witness :
    (query_chat_model
        (fun _ => .ok (ChatResponse.mk
          [⟨⟨"a"⟩, "length"⟩, ⟨⟨"b"⟩, "stop"⟩, ⟨⟨"c"⟩, "content_filter"⟩])) 7
        ⟨200, "x"⟩).1
      = .ok ["a", "b", "c"] := by
  have h := (C8_warnings_not_errors
    (fun _ => .ok (ChatResponse.mk
      [⟨⟨"a"⟩, "length"⟩, ⟨⟨"b"⟩, "stop"⟩, ⟨⟨"c"⟩, "content_filter"⟩])) 7
    ⟨200, "x"⟩
    (ChatResponse.mk [⟨⟨"a"⟩, "length"⟩, ⟨⟨"b"⟩, "stop"⟩, ⟨⟨"c"⟩, "content_filter"⟩])
    rfl rfl).2.2.2.2
  rw [h]
  simp only [Except.ok.injEq]
  decide

/-- C10: when the prompt's token count is within the limit,
`enforce_token_limit` is the identity and logs no warning. -/
theorem C10_enforce_token_limit_id (prompt : String) (tokenizer : Tokenizer)
    (max_tokens_limit : Nat)
    (h : (tokenizer.encode prompt).length ≤ max_tokens_limit) :
    enforce_token_limit prompt tokenizer max_tokens_limit = (prompt, false) := by
  unfold enforce_token_limit
  rw [if_neg (by omega)]

/-- Witness for C10: a two-character prompt under a limit of 5 passes
through untouched. -/
theorem C10_enforce_token_limit_id_witness :
    enforce_token_limit "ab" charTok 5 = ("ab", false) :=
  C10_enforce_token_limit_id "ab" charTok 5 (by decide)

end Haystack

namespace Haystack

/-- C2 (code-bug exhibit): the installed retry predicate retries ANY
exception other than `Unauthorized`, not only classified provider errors —
a call raising a non-OpenAI exception on every attempt is retried to the
full 5 attempts, though `retry_if_OpenAIError` rejects it.  The claim's
enumerated behaviours do hold: two 429s then a 200 make exactly 3 attempts
and return the success; a single 401 makes exactly one attempt and
propagates; exhaustion re-raises the last classified error unchanged. -/
theorem C2_retry_code_bug :
    ((openai_retry (fun _ => (Except.error (Exc.other "boom") : Except Exc Nat))).2 = 5)
    ∧ (retry_if_OpenAIError (Exc.other "boom") = false)
    ∧ (openai_retry (fun attempt =>
          if attempt ≤ 2 then Except.error (Exc.rateLimited "slow")
          else (Except.ok 42 : Except Exc Nat))
        = (.ok 42, 3))
    ∧ (openai_retry
          (fun _ => (Except.error (Exc.unauthorized "bad key") : Except Exc Nat))
        = (.error (.unauthorized "bad key"), 1))
    ∧ (openai_retry
          (fun _ => (Except.error (Exc.rateLimited "slow") : Except Exc Nat))
        = (.error (.rateLimited "slow"), 5)) :=
  ⟨rfl, rfl, rfl, rfl, rfl⟩

/-- The stream loop over a well-formed token stream of non-empty tokens
with a never-raising callback: all tokens reach the callback in order and
the accumulated results are the callback's returns in order. -/
theorem stream_loop_tokenStream (f : String → List StreamChoice → String) :
    ∀ ts : List String, (∀ t ∈ ts, t ≠ "") →
      stream_loop (fun t m => .ok (f t m)) (tokenStream ts)
        = (.ok (ts.map (fun t => f t [⟨⟨some t⟩⟩])), ts)
  | [], _ => by
    simp [tokenStream, stream_loop]
  | t :: ts', h => by
    have ih := stream_loop_tokenStream f ts'
      (fun x hx => h x (List.mem_cons_of_mem _ hx))
    have hne : ¬ t = "" := h t (List.mem_cons_self _ _)
    simp [tokenStream, mkTokenEvent, stream_loop, hne] at *
    simp [ih, Except.map]

/-- C4: given `N` events carrying non-empty first-choice content deltas,
then the termination marker, the callback is invoked exactly `N` times in
arrival order on exactly those tokens, and the call returns the
single-element list holding the concatenation of the callback's return
values; an event without content, or with empty content, triggers no
callback and changes nothing. -/
theorem C4_stream_collects (f : String → List StreamChoice → String)
    (ts : List String) (hne : ∀ t ∈ ts, t ≠ "") :
    ((query_chat_model_stream (fun t m => .ok (f t m)) (tokenStream ts)).callback_calls
        = ts)
    ∧ ((query_chat_model_stream (fun t m => .ok (f t m)) (tokenStream ts)).result
        = .ok [String.join (ts.map (fun t => f t [⟨⟨some t⟩⟩]))])
    ∧ (∀ rest, stream_loop (fun t m => .ok (f t m)) (.payload ⟨[⟨⟨none⟩⟩]⟩ :: rest)
        = stream_loop (fun t m => .ok (f t m)) rest)
    ∧ (∀ rest, stream_loop (fun t m => .ok (f t m)) (.payload ⟨[⟨⟨some ""⟩⟩]⟩ :: rest)
        = stream_loop (fun t m => .ok (f t m)) rest) := by
  have h := stream_loop_tokenStream f ts hne
  refine ⟨?_, ?_, ?_, ?_⟩
  · simp [query_chat_model_stream, h]
  · simp [query_chat_model_stream, h, Except.map]
  · intro rest
    simp [stream_loop]
  · intro rest
    simp [stream_loop]

/-- Witness for C4: two tokens are collected in order and concatenated. -/
theorem C4_stream_collects_witness :
    ((query_chat_model_stream (fun t _ => .ok t) (tokenStream ["He", "llo"])).callback_calls
        = ["He", "llo"])
    ∧ ((query_chat_model_stream (fun t _ => .ok t) (tokenStream ["He", "llo"])).result
        = .ok ["Hello"]) := by
  have h := C4_stream_collects (fun t _ => t) ["He", "llo"] (by decide)
  refine ⟨h.1, ?_⟩
  rw [h.2.1]
  simp only [Except.ok.injEq]
  decide

/-- C5: after the SSE client is created, the `finally` closes it exactly
once on every exit path; any exception that unwinds the loop — including an
exception raised by the callback — is the call's outcome, unchanged. -/
theorem C5_stream_close_once (cb : String → List StreamChoice → Except Exc String)
    (events : List SSEEvent) :
    ((query_chat_model_stream cb events).closes = 1)
    ∧ (∀ e, (stream_loop cb events).1 = .error e →
        (query_chat_model_stream cb events).result = .error e)
    ∧ (∀ (d : EventData) (t : String) (e : Exc) rest choice crest,
        d.choices = choice :: crest → choice.delta.content = some t → t ≠ "" →
        cb t d.choices = .error e →
        (query_chat_model_stream cb (.payload d :: rest)).result = .error e) := by
  refine ⟨rfl, ?_, ?_⟩
  · intro e he
    simp [query_chat_model_stream, he, Except.map]
  · intro d t e rest choice crest hch hct hnet hcb
    rw [hch] at hcb
    simp [query_chat_model_stream, stream_loop, hch, hct, hnet, hcb, Except.map]

/-- Witness for C5: a callback that raises on the first token makes the
call fail with exactly that exception (and the close count is 1). -/
theorem C5_stream_close_once_witness :
    (query_chat_model_stream (fun _ _ => .error (.other "cb failed"))
        [.payload ⟨[⟨⟨some "tok"⟩⟩]⟩]).result = .error (.other "cb failed") :=
  (C5_stream_close_once (fun _ _ => .error (.other "cb failed"))
      [.payload ⟨[⟨⟨some "tok"⟩⟩]⟩]).2.2
    ⟨[⟨⟨some "tok"⟩⟩]⟩ "tok" (.other "cb failed") [] ⟨⟨some "tok"⟩⟩ []
    rfl rfl (by decide) rfl

/-- C6 counterexample: for the (legal, untyped) tokenizer `lossyTok` the
prompt `"ab"` has 2 tokens, exceeding the limit 1, yet the truncated
prompt's token count is 0, not 1: the source only returns
`decode(tokens[:limit])` and cannot by itself make its re-encoded length
equal the limit. -/
theorem C6_counterexample :
    ((lossyTok.encode "ab").length = 2)
    ∧ ((enforce_token_limit "ab" lossyTok 1).2 = true)
    ∧ ((lossyTok.encode (enforce_token_limit "ab" lossyTok 1).1).length = 0) := by
  refine ⟨rfl, rfl, rfl⟩

/-- C6 (amended): on strict excess, `enforce_token_limit` returns the
decoding of the first `max_tokens_limit` tokens and logs the warning; IF
the tokenizer re-encodes that decoded prefix to the prefix itself
(a round-trip property real tokenizers provide, which the claim tacitly
assumes), the truncated prompt's token count equals exactly the limit.  The
warning fires iff the count strictly exceeds the limit. -/
theorem C6_enforce_token_limit_truncates (prompt : String) (tokenizer : Tokenizer)
    (max_tokens_limit : Nat)
    (hgt : max_tokens_limit < (tokenizer.encode prompt).length) :
    ((enforce_token_limit prompt tokenizer max_tokens_limit).1
        = tokenizer.decode ((tokenizer.encode prompt).take max_tokens_limit))
    ∧ ((enforce_token_limit prompt tokenizer max_tokens_limit).2 = true)
    ∧ (tokenizer.encode (tokenizer.decode ((tokenizer.encode prompt).take max_tokens_limit))
          = (tokenizer.encode prompt).take max_tokens_limit →
        (tokenizer.encode (enforce_token_limit prompt tokenizer max_tokens_limit).1).length
          = max_tokens_limit)
    ∧ (∀ (p : String) (t : Tokenizer) (l : Nat),
        (enforce_token_limit p t l).2 = true ↔ l < (t.encode p).length) := by
  refine ⟨?_, ?_, ?_, ?_⟩
  · simp only [enforce_token_limit]
    rw [if_pos (by omega)]
  · simp only [enforce_token_limit]
    rw [if_pos (by omega)]
  · intro hrt
    simp only [enforce_token_limit]
    rw [if_pos (by omega)]
    simp only []
    rw [hrt, List.length_take]
    omega
  · intro p t l
    simp only [enforce_token_limit]
    split_ifs with h
    · simp
      omega
    · simp
      omega

/-- Witness for C6: the character tokenizer round-trips, so truncating
`"abc"` to 2 tokens yields a prompt of exactly 2 tokens. -/
theorem C6_enforce_token_limit_truncates_witness :
    (charTok.encode (enforce_token_limit "abc" charTok 2).1).length = 2 :=
  (C6_enforce_token_limit_truncates "abc" charTok 2 (by decide)).2.2.1 (by decide)

end Haystack
